import Mathlib

/-!
Shallow embedding of the gdqbot stream-monitoring bot (src/main.rs, src/error.rs).

The bot polls the Twitch Helix API for a channel's stream, detects game-name
changes, persists the latest game to a key-value store, announces changes over
Discord webhooks, and terminates gracefully after a configured number of
consecutive offline observations or when the stream title marks a rerun.

External I/O (HTTP requests to the key-value store, the Helix API and the
webhooks) is modelled by oracle parameters: each network call's outcome is an
explicit input of the embedded function, and the function computes exactly what
the Rust code computes from that outcome.  u32 arithmetic is modelled on Nat
with reduction mod 2^32 where the source increments.
-/

/-- The error enum of src/error.rs.  External library error payloads are
modelled as their message strings. -/
inductive GdqBotError where
  | HelixError (msg : String)
  | HelixAccessError (msg : String)
  | ReqwestError (msg : String)
  | TonicStatus (msg : String)
  | TonicTransportError (msg : String)
  | SerenityError (msg : String)
  | StreamOffline (count : Nat)
  | StreamRerun (title : String)
  | Other (msg : String)
deriving DecidableEq, Repr

/-- Log levels of the tracing macros used in src/main.rs. -/
inductive LogLevel where
  | info
  | warn
  | error
deriving DecidableEq, Repr

/-- One emitted log line: level of the tracing macro and the formatted text. -/
structure LogEvent where
  level : LogLevel
  msg : String
deriving DecidableEq, Repr

/-- The mutable fields of the GdqBot struct that the poll loop reads and
writes: `current_game`, `offline_count` and the immutable `offline_threshold`
(both u32 in the source, modelled as Nat). -/
structure BotState where
  current_game : String
  offline_count : Nat
  offline_threshold : Nat
deriving DecidableEq, Repr

/-- Wrap-around modulus of the u32 counters. -/
def U32_MOD : Nat := 2 ^ 32

/-- Result of the Helix get-streams call (`helix_client.req_get`): either a
transport/API error, or the `data` vector of stream records, each carrying
`(game_name, title)`. -/
inductive QueryResult where
  | error (msg : String)
  | streams (data : List (String × String))
deriving DecidableEq, Repr

deriving instance DecidableEq for Except

/-- An HTTP response as far as `get_current_game_from_db` inspects it: a
status code and the result of decoding the body as a JSON string. -/
structure HttpResponse where
  status : Nat
  body : Except String String
deriving DecidableEq, Repr

/-- An intended side effect of one tick: persist the game to the KV store, or
notify the webhooks of the change. -/
inductive Effect where
  | persist (game : String)
  | notify (game : String) (title : String)
deriving DecidableEq, Repr

/-- Decides whether the first character list is a prefix of the second. -/
def isPrefixL : List Char → List Char → Bool
  | [], _ => true
  | _ :: _, [] => false
  | a :: as, b :: bs => a == b && isPrefixL as bs

/-- Decides whether `pat` occurs as a contiguous substring of `hay`. -/
def containsL (pat : List Char) : List Char → Bool
  | [] => isPrefixL pat []
  | c :: rest => isPrefixL pat (c :: rest) || containsL pat rest

/-- Models Rust `str::to_lowercase` for the characters relevant here
(character-wise lowercasing; no non-ASCII uppercase character lowercases to an
ASCII letter of the pattern checked below). -/
def strToLower (s : String) : String :=
  ⟨s.data.map Char.toLower⟩

/-- The rerun check of `get_current_game_from_twitch`:
`stream_title.to_lowercase().contains("rerun")`. -/
def isRerunTitle (title : String) : Bool :=
  containsL "rerun".data (strToLower title).data

/-- Models Rust `u32::from_str` (used via `s.parse::<u32>()`): an optional
leading plus sign, then one or more ASCII digits, and the value must fit in
u32; anything else fails. -/
def parseU32 (s : String) : Option Nat :=
  let ds := match s.data with
    | '+' :: t => t
    | cs => cs
  if ds.isEmpty then none
  else if ds.all Char.isDigit then
    let v := ds.foldl (fun a c => a * 10 + (c.toNat - 48)) 0
    if v < U32_MOD then some v else none
  else none

/-- Default offline threshold constant of src/main.rs. -/
def DEFAULT_OFFLINE_THRESHOLD : Nat := 3

/-- The `offline_threshold` computation of `GdqBot::new`: read the
OFFLINE_CHECK_COUNT environment variable (`none` when absent), parse it as
u32, and fall back to the default when either step fails. -/
def offline_threshold_from_env (env : Option String) : Nat :=
  (env.bind parseU32).getD DEFAULT_OFFLINE_THRESHOLD

/-- The initial bot state built by `GdqBot::new`: empty `current_game`,
`offline_count = 0`, and the threshold computed from the environment. -/
def GdqBot.new (env : Option String) : BotState :=
  { current_game := ""
    offline_count := 0
    offline_threshold := offline_threshold_from_env env }

/-- `get_current_game_from_db`: GET the KV-store key; a transport error or a
non-200 status or a body-decoding error is returned as an error and leaves the
state untouched; on success `current_game` is set to the decoded value.
The oracle `resp` is the outcome of the HTTP send. -/
def get_current_game_from_db (s : BotState) (resp : Except String HttpResponse) :
    Except GdqBotError String × BotState :=
  match resp with
  | .error e => (.error (.ReqwestError e), s)
  | .ok r =>
    if r.status ≠ 200 then
      (.error (.Other "Error getting game from KVStore"), s)
    else
      match r.body with
      | .error e => (.error (.ReqwestError e), s)
      | .ok v => (.ok v, { s with current_game := v })

/-- `set_current_game_to_db`: POST the game to the KV-store key; a transport
error or non-200 status is an error with no log; success logs the saved game
at info level.  The oracle `resp` is the outcome of the HTTP send (transport
error, or response status). -/
def set_current_game_to_db (game : String) (resp : Except String Nat) :
    Except GdqBotError Unit × List LogEvent :=
  match resp with
  | .error e => (.error (.ReqwestError e), [])
  | .ok status =>
    if status ≠ 200 then
      (.error (.Other "Error setting game to KVStore"), [])
    else
      (.ok (), [⟨.info, "Saved game to KVStore: " ++ game⟩])

/-- The webhook loop body of `send_game_change_message`: sinks are attempted
in order; the first failing sink makes the function return that error (the
source applies the question-mark operator inside the for loop), so the
remaining sinks are not attempted.  Returns the overall result and the list of
sinks actually attempted.  The oracle `f` gives each sink's outcome. -/
def sendLoop (f : String → Except String Unit) :
    List String → Except GdqBotError Unit × List String
  | [] => (.ok (), [])
  | w :: ws =>
    match f w with
    | .error e => (.error (.SerenityError e), [w])
    | .ok _ =>
      let r := sendLoop f ws
      (r.1, w :: r.2)

/-- `send_game_change_message`: run the webhook loop; only when every sink
succeeded is the change logged at info level. -/
def send_game_change_message (game : String) (webhooks : List String)
    (f : String → Except String Unit) :
    Except GdqBotError Unit × List String × List LogEvent :=
  let r := sendLoop f webhooks
  match r.1 with
  | .ok _ => (.ok (), r.2, [⟨.info, "Game changed to: " ++ game⟩])
  | .error e => (.error e, r.2, [])

/-- Everything one call to `get_current_game_from_twitch` produces: the Rust
return value, the bot state after the call, the persist/notify effects it
launched, and the log lines it emitted (effect logs in the order of the
`tokio::join!` tuple). -/
structure StepResult where
  result : Except GdqBotError (Option String)
  state : BotState
  effects : List Effect
  logs : List LogEvent
deriving DecidableEq, Repr

/-- `get_current_game_from_twitch`: a query error propagates unchanged-state;
an empty data vector is an offline observation (`Ok None`); a title containing
"rerun" case-insensitively terminates with `StreamRerun` before any effect;
otherwise, when the observed game differs from `current_game`, the persist and
notify effects are both launched (`tokio::join!`) and both results are
discarded, and in every online non-rerun case `current_game` is set to the
observed game. Oracles: `q` the Helix response, `storeResp` the KV-store POST
outcome, `webhooks`/`f` the sink list and per-sink outcomes. -/
def get_current_game_from_twitch (s : BotState) (q : QueryResult)
    (storeResp : Except String Nat) (webhooks : List String)
    (f : String → Except String Unit) : StepResult :=
  match q with
  | .error e => ⟨.error (.HelixError e), s, [], []⟩
  | .streams [] => ⟨.ok none, s, [], [⟨.warn, "Stream is offline"⟩]⟩
  | .streams ((game, title) :: _) =>
    if isRerunTitle title then
      ⟨.error (.StreamRerun title), s, [],
       [⟨.info, "Stream is a rerun: " ++ title⟩]⟩
    else
      let baseLogs : List LogEvent :=
        [⟨.info, "Got current game from Twitch: " ++ game⟩]
      if game ≠ s.current_game then
        let persistRes := set_current_game_to_db game storeResp
        let notifyRes := send_game_change_message game webhooks f
        ⟨.ok (some game), { s with current_game := game },
         [.persist game, .notify game title],
         baseLogs ++ persistRes.2 ++ notifyRes.2.2⟩
      else
        ⟨.ok (some game), { s with current_game := game }, [], baseLogs⟩

/-- Loop-control outcome of one iteration of `run`: the loop either continues
to the next tick or returns `Err e` to `main`. -/
inductive Verdict where
  | Continue
  | Terminate (e : GdqBotError)
deriving DecidableEq, Repr

/-- Everything one iteration of the `run` loop produces. -/
structure TickResult where
  state : BotState
  verdict : Verdict
  effects : List Effect
  logs : List LogEvent
deriving DecidableEq, Repr

/-- One iteration of the `run` loop: call `get_current_game_from_twitch`
(whose error the question-mark operator propagates out of the loop), reset
`offline_count` to 0 on an online observation, and on an offline observation
increment it (u32 wrap) and return `Err (StreamOffline count)` once the count
reaches the threshold. -/
def run_tick (s : BotState) (q : QueryResult) (storeResp : Except String Nat)
    (webhooks : List String) (f : String → Except String Unit) : TickResult :=
  let r := get_current_game_from_twitch s q storeResp webhooks f
  match r.result with
  | .error e => ⟨r.state, .Terminate e, r.effects, r.logs⟩
  | .ok (some _) => ⟨{ r.state with offline_count := 0 }, .Continue, r.effects, r.logs⟩
  | .ok none =>
    let c := (s.offline_count + 1) % U32_MOD
    let logs1 := r.logs ++
      [⟨.info, "Stream offline check " ++ toString c ++ "/" ++
        toString s.offline_threshold⟩]
    if s.offline_threshold ≤ c then
      ⟨{ s with offline_count := c }, .Terminate (.StreamOffline c), r.effects,
       logs1 ++ [⟨.info, "Stream has been offline for " ++ toString c ++
         " consecutive checks. Exiting gracefully."⟩]⟩
    else
      ⟨{ s with offline_count := c }, .Continue, r.effects, logs1⟩

/-- The startup sequence of `main` around the initial state read: after
`GdqBot::new`, `get_current_game_from_db` is awaited with the question-mark
operator, so a failed read aborts startup with that error and the poll loop
never starts; only a successful read yields the seeded state the loop runs
with. -/
def startupSeed (s : BotState) (resp : Except String HttpResponse) :
    Except GdqBotError BotState :=
  match get_current_game_from_db s resp with
  | (.error e, _) => .error e
  | (.ok _, s1) => .ok s1

/-- The result `main` ends with, as a function of the three awaited results it
composes: `init_helix()?`, `get_current_game_from_db()?`, then `run()`. -/
def mainResult (helixRes : Except GdqBotError Unit)
    (dbRes : Except GdqBotError String)
    (runRes : Except GdqBotError Unit) : Except GdqBotError Unit :=
  match helixRes with
  | .error e => .error e
  | .ok _ =>
    match dbRes with
    | .error e => .error e
    | .ok _ => runRes

/-- The process exit code produced by the final match of `main`: 0 for `Ok`
and for the graceful `StreamOffline`/`StreamRerun` signals (explicit
`process::exit(0)`), and 1 (Rust's failure exit for `Err` from `main`) for
every other error. -/
def mainExitCode : Except GdqBotError Unit → Nat
  | .ok _ => 0
  | .error (.StreamOffline _) => 0
  | .error (.StreamRerun _) => 0
  | .error _ => 1

/-- Every log line `set_current_game_to_db` can emit is at info level: its
failure paths (transport error, non-200 status) emit nothing. -/
lemma set_db_logs_info (game : String) (resp : Except String Nat) :
    ∀ ev ∈ (set_current_game_to_db game resp).2, ev.level = LogLevel.info := by
  rcases resp with e | status
  · simp [set_current_game_to_db]
  · by_cases h : status = 200 <;> simp [set_current_game_to_db, h]

/-- Every log line `send_game_change_message` can emit is at info level: its
failure path emits nothing. -/
lemma send_msg_logs_info (game : String) (ws : List String)
    (f : String → Except String Unit) :
    ∀ ev ∈ (send_game_change_message game ws f).2.2, ev.level = LogLevel.info := by
  cases h : (sendLoop f ws).1 with
  | error e => simp [send_game_change_message, h]
  | ok v => simp [send_game_change_message, h]

/-- When every sink succeeds, the webhook loop succeeds and attempts all of
them in order. -/
lemma sendLoop_all_ok (f : String → Except String Unit) :
    ∀ ws : List String, (∀ x ∈ ws, f x = Except.ok ()) →
      sendLoop f ws = (Except.ok (), ws) := by
  intro ws
  induction ws with
  | nil => intro _; rfl
  | cons w ws ih =>
    intro h
    have hw : f w = Except.ok () := h w (by simp)
    have ht := ih (fun x hx => h x (by simp [hx]))
    simp [sendLoop, hw, ht]

/-- Claim C1 (amended): if the startup read of the persisted current_game
value fails (store unreachable or non-200 response), startup aborts rather
than continuing with an empty default: `get_current_game_from_db` returns the
error, `main` propagates it with the question-mark operator before entering
the poll loop, and the process exits non-zero; there is no warning downgrade. -/
theorem thm_C1 (env : Option String) (m : String) (r : Except GdqBotError Unit)
    (resp : HttpResponse) (h : resp.status ≠ 200) :
    startupSeed (GdqBot.new env) (Except.error m)
        = Except.error (GdqBotError.ReqwestError m) ∧
    startupSeed (GdqBot.new env) (Except.ok resp)
        = Except.error (GdqBotError.Other "Error getting game from KVStore") ∧
    mainExitCode (mainResult (Except.ok ())
        (Except.error (GdqBotError.ReqwestError m)) r) = 1 ∧
    mainExitCode (mainResult (Except.ok ())
        (Except.error (GdqBotError.Other "Error getting game from KVStore")) r) = 1 := by
  refine ⟨rfl, ?_, rfl, rfl⟩
  simp [startupSeed, get_current_game_from_db, h]

/-- Witness for C1: a transport error and a 500 response each abort startup
with a propagated error and exit code 1. -/
theorem thm_C1_witness :
    startupSeed (GdqBot.new none) (Except.error "connection refused")
        = Except.error (GdqBotError.ReqwestError "connection refused") ∧
    startupSeed (GdqBot.new none) (Except.ok ⟨500, Except.ok ""⟩)
        = Except.error (GdqBotError.Other "Error getting game from KVStore") ∧
    mainExitCode (mainResult (Except.ok ())
        (Except.error (GdqBotError.ReqwestError "connection refused"))
        (Except.ok ())) = 1 ∧
    mainExitCode (mainResult (Except.ok ())
        (Except.error (GdqBotError.Other "Error getting game from KVStore"))
        (Except.ok ())) = 1 :=
  thm_C1 none "connection refused" (Except.ok ()) ⟨500, Except.ok ""⟩ (by decide)

/-- Counterexample to C1 as stated: with the store unreachable at startup, the
read yields `Err`, which `main` propagates before the loop starts — startup
aborts with a non-zero exit instead of starting the loop with an empty
current_game. -/
theorem thm_C1_counterexample :
    startupSeed (GdqBot.new none) (Except.error "store unreachable")
        = Except.error (GdqBotError.ReqwestError "store unreachable") ∧
    mainExitCode (mainResult (Except.ok ())
        (Except.error (GdqBotError.ReqwestError "store unreachable"))
        (Except.ok ())) = 1 :=
  ⟨rfl, rfl⟩

/-- Claim C2: on every Offline observation the tick increments the offline
count by exactly 1 (below the u32 wrap), leaves current_game unchanged and
emits no effect; the verdict is `Terminate (StreamOffline count)` exactly when
the new count reaches the threshold and `Continue` strictly below it; and with
threshold 3 three consecutive Offline ticks give Continue, Continue,
Terminate (StreamOffline 3). -/
theorem thm_C2 :
    (∀ (s : BotState) (storeResp : Except String Nat) (webhooks : List String)
        (f : String → Except String Unit),
      s.offline_count + 1 < U32_MOD →
      (run_tick s (QueryResult.streams []) storeResp webhooks f).state.offline_count
          = s.offline_count + 1 ∧
      (run_tick s (QueryResult.streams []) storeResp webhooks f).state.current_game
          = s.current_game ∧
      (run_tick s (QueryResult.streams []) storeResp webhooks f).effects = [] ∧
      (run_tick s (QueryResult.streams []) storeResp webhooks f).verdict
          = (if s.offline_threshold ≤ s.offline_count + 1 then
              Verdict.Terminate (GdqBotError.StreamOffline (s.offline_count + 1))
             else Verdict.Continue)) ∧
    ((run_tick ⟨"", 0, 3⟩ (QueryResult.streams []) (Except.error "") []
        (fun _ => Except.ok ())).verdict = Verdict.Continue ∧
     (run_tick (run_tick ⟨"", 0, 3⟩ (QueryResult.streams []) (Except.error "") []
        (fun _ => Except.ok ())).state (QueryResult.streams []) (Except.error "") []
        (fun _ => Except.ok ())).verdict = Verdict.Continue ∧
     (run_tick (run_tick (run_tick ⟨"", 0, 3⟩ (QueryResult.streams [])
        (Except.error "") [] (fun _ => Except.ok ())).state
        (QueryResult.streams []) (Except.error "") []
        (fun _ => Except.ok ())).state (QueryResult.streams []) (Except.error "") []
        (fun _ => Except.ok ())).verdict
        = Verdict.Terminate (GdqBotError.StreamOffline 3)) := by
  constructor
  · intro s storeResp webhooks f h
    have hc : (s.offline_count + 1) % U32_MOD = s.offline_count + 1 :=
      Nat.mod_eq_of_lt h
    by_cases ht : s.offline_threshold ≤ s.offline_count + 1 <;>
      simp [run_tick, get_current_game_from_twitch, hc, ht]
  · exact ⟨by decide, by decide, by decide⟩

/-- Witness for C2: a state one Offline tick below threshold 3 increments to
2, keeps its game, emits nothing and continues. -/
theorem thm_C2_witness :
    (run_tick ⟨"Celeste", 1, 3⟩ (QueryResult.streams []) (Except.error "kv") ["w"]
        (fun _ => Except.ok ())).state.offline_count = 1 + 1 ∧
    (run_tick ⟨"Celeste", 1, 3⟩ (QueryResult.streams []) (Except.error "kv") ["w"]
        (fun _ => Except.ok ())).state.current_game = "Celeste" ∧
    (run_tick ⟨"Celeste", 1, 3⟩ (QueryResult.streams []) (Except.error "kv") ["w"]
        (fun _ => Except.ok ())).effects = [] ∧
    (run_tick ⟨"Celeste", 1, 3⟩ (QueryResult.streams []) (Except.error "kv") ["w"]
        (fun _ => Except.ok ())).verdict
        = (if 3 ≤ 1 + 1 then Verdict.Terminate (GdqBotError.StreamOffline (1 + 1))
           else Verdict.Continue) :=
  thm_C2.1 ⟨"Celeste", 1, 3⟩ (Except.error "kv") ["w"] (fun _ => Except.ok ())
    (by decide)

/-- Claim C3: an Online observation whose title contains "rerun"
case-insensitively makes the tick terminate with `StreamRerun title`, leaving
the state unchanged and emitting no persist and no notify effect, whatever the
observed game and the stored game are — the rerun check precedes game-change
detection in the source. -/
theorem thm_C3 (s : BotState) (game title : String) (rest : List (String × String))
    (storeResp : Except String Nat) (webhooks : List String)
    (f : String → Except String Unit) (h : isRerunTitle title = true) :
    run_tick s (QueryResult.streams ((game, title) :: rest)) storeResp webhooks f
      = ⟨s, Verdict.Terminate (GdqBotError.StreamRerun title), [],
         [⟨LogLevel.info, "Stream is a rerun: " ++ title⟩]⟩ := by
  simp [run_tick, get_current_game_from_twitch, h]

/-- Witness for C3: a rerun title with a game differing from the stored one
still terminates with `StreamRerun` and no effects. -/
theorem thm_C3_witness :
    run_tick ⟨"Chrono Trigger", 2, 3⟩
        (QueryResult.streams [("Celeste", "Any% RERUN")]) (Except.error "")
        ["w"] (fun _ => Except.ok ())
      = ⟨⟨"Chrono Trigger", 2, 3⟩,
         Verdict.Terminate (GdqBotError.StreamRerun "Any% RERUN"), [],
         [⟨LogLevel.info, "Stream is a rerun: " ++ "Any% RERUN"⟩]⟩ :=
  thm_C3 ⟨"Chrono Trigger", 2, 3⟩ "Celeste" "Any% RERUN" [] (Except.error "")
    ["w"] (fun _ => Except.ok ()) (by decide)

/-- Claim C4: on an Online non-rerun observation, the tick emits no effect
when the observed game equals the stored one and exactly one persist and one
notify effect with that game when it differs; in both cases the offline count
resets to 0, current_game ends up equal to the observed game, and the verdict
is Continue. -/
theorem thm_C4 (s : BotState) (game title : String) (rest : List (String × String))
    (storeResp : Except String Nat) (webhooks : List String)
    (f : String → Except String Unit) (h : isRerunTitle title = false) :
    (run_tick s (QueryResult.streams ((game, title) :: rest)) storeResp webhooks f).effects
        = (if game = s.current_game then []
           else [Effect.persist game, Effect.notify game title]) ∧
    (run_tick s (QueryResult.streams ((game, title) :: rest)) storeResp webhooks f).state.offline_count
        = 0 ∧
    (run_tick s (QueryResult.streams ((game, title) :: rest)) storeResp webhooks f).state.current_game
        = game ∧
    (run_tick s (QueryResult.streams ((game, title) :: rest)) storeResp webhooks f).verdict
        = Verdict.Continue := by
  by_cases hg : game = s.current_game <;>
    simp [run_tick, get_current_game_from_twitch, h, hg]

/-- Witness for C4: observing Celeste over an empty stored game emits exactly
one persist and one notify effect, resets the count and continues. -/
theorem thm_C4_witness :
    (run_tick ⟨"", 1, 3⟩ (QueryResult.streams [("Celeste", "GDQ 2024")])
        (Except.ok 200) ["w"] (fun _ => Except.ok ())).effects
        = (if "Celeste" = "" then []
           else [Effect.persist "Celeste", Effect.notify "Celeste" "GDQ 2024"]) ∧
    (run_tick ⟨"", 1, 3⟩ (QueryResult.streams [("Celeste", "GDQ 2024")])
        (Except.ok 200) ["w"] (fun _ => Except.ok ())).state.offline_count = 0 ∧
    (run_tick ⟨"", 1, 3⟩ (QueryResult.streams [("Celeste", "GDQ 2024")])
        (Except.ok 200) ["w"] (fun _ => Except.ok ())).state.current_game
        = "Celeste" ∧
    (run_tick ⟨"", 1, 3⟩ (QueryResult.streams [("Celeste", "GDQ 2024")])
        (Except.ok 200) ["w"] (fun _ => Except.ok ())).verdict
        = Verdict.Continue :=
  thm_C4 ⟨"", 1, 3⟩ "Celeste" "GDQ 2024" [] (Except.ok 200) ["w"]
    (fun _ => Except.ok ()) (by decide)

/-- Claim C5 (amended): on a game-change tick, a persist failure and a notify
failure are each caught and silently discarded — neither is logged (no
error-level log line exists on these paths), neither prevents the other effect
from being launched, and neither prevents current_game from being committed;
the verdict stays Continue for every combination of effect outcomes. -/
theorem thm_C5 (s : BotState) (game title : String) (rest : List (String × String))
    (storeResp : Except String Nat) (webhooks : List String)
    (f : String → Except String Unit) (h : isRerunTitle title = false)
    (hg : game ≠ s.current_game) :
    (run_tick s (QueryResult.streams ((game, title) :: rest)) storeResp webhooks f).state.current_game
        = game ∧
    (run_tick s (QueryResult.streams ((game, title) :: rest)) storeResp webhooks f).state.offline_count
        = 0 ∧
    (run_tick s (QueryResult.streams ((game, title) :: rest)) storeResp webhooks f).verdict
        = Verdict.Continue ∧
    (run_tick s (QueryResult.streams ((game, title) :: rest)) storeResp webhooks f).effects
        = [Effect.persist game, Effect.notify game title] ∧
    (∀ ev ∈ (run_tick s (QueryResult.streams ((game, title) :: rest)) storeResp webhooks f).logs,
      ev.level ≠ LogLevel.error) := by
  refine ⟨?_, ?_, ?_, ?_, ?_⟩
  · simp [run_tick, get_current_game_from_twitch, h, hg]
  · simp [run_tick, get_current_game_from_twitch, h, hg]
  · simp [run_tick, get_current_game_from_twitch, h, hg]
  · simp [run_tick, get_current_game_from_twitch, h, hg]
  · intro ev hev
    simp [run_tick, get_current_game_from_twitch, h, hg, List.mem_append] at hev
    rcases hev with h1 | h2 | h3
    · rw [h1]
      simp
    · have := set_db_logs_info game storeResp ev h2
      rw [this]
      decide
    · have := send_msg_logs_info game webhooks f ev h3
      rw [this]
      decide

/-- Witness for C5: with the store unreachable and the sink down, the tick
still commits the new game, resets the count, keeps both effects and
continues. -/
theorem thm_C5_witness :
    (run_tick ⟨"", 0, 3⟩ (QueryResult.streams [("Celeste", "GDQ 2024")])
        (Except.error "store unreachable") ["w"]
        (fun _ => Except.error "sink down")).state.current_game = "Celeste" ∧
    (run_tick ⟨"", 0, 3⟩ (QueryResult.streams [("Celeste", "GDQ 2024")])
        (Except.error "store unreachable") ["w"]
        (fun _ => Except.error "sink down")).state.offline_count = 0 ∧
    (run_tick ⟨"", 0, 3⟩ (QueryResult.streams [("Celeste", "GDQ 2024")])
        (Except.error "store unreachable") ["w"]
        (fun _ => Except.error "sink down")).verdict = Verdict.Continue ∧
    (run_tick ⟨"", 0, 3⟩ (QueryResult.streams [("Celeste", "GDQ 2024")])
        (Except.error "store unreachable") ["w"]
        (fun _ => Except.error "sink down")).effects
        = [Effect.persist "Celeste", Effect.notify "Celeste" "GDQ 2024"] :=
  ⟨(thm_C5 ⟨"", 0, 3⟩ "Celeste" "GDQ 2024" [] (Except.error "store unreachable")
      ["w"] (fun _ => Except.error "sink down") (by decide) (by decide)).1,
   (thm_C5 ⟨"", 0, 3⟩ "Celeste" "GDQ 2024" [] (Except.error "store unreachable")
      ["w"] (fun _ => Except.error "sink down") (by decide) (by decide)).2.1,
   (thm_C5 ⟨"", 0, 3⟩ "Celeste" "GDQ 2024" [] (Except.error "store unreachable")
      ["w"] (fun _ => Except.error "sink down") (by decide) (by decide)).2.2.1,
   (thm_C5 ⟨"", 0, 3⟩ "Celeste" "GDQ 2024" [] (Except.error "store unreachable")
      ["w"] (fun _ => Except.error "sink down") (by decide) (by decide)).2.2.2.1⟩

/-- Counterexample to C5 as stated: on a game-change tick with the persist
failing, the tick completes (game committed, both effects launched, verdict
Continue), but the full log of the tick holds only the two info lines of the
success paths — the persist failure is discarded without any log line, so it
is not "caught and logged". -/
theorem thm_C5_counterexample :
    run_tick ⟨"", 0, 3⟩ (QueryResult.streams [("Celeste", "GDQ 2024")])
        (Except.error "store unreachable") ["w"] (fun _ => Except.ok ())
      = ⟨⟨"Celeste", 0, 3⟩, Verdict.Continue,
         [Effect.persist "Celeste", Effect.notify "Celeste" "GDQ 2024"],
         [⟨LogLevel.info, "Got current game from Twitch: Celeste"⟩,
          ⟨LogLevel.info, "Game changed to: Celeste"⟩]⟩ := by decide

/-- Claim C6 (amended): the webhook broadcast attempts sinks in order and the
first failing sink aborts it — the error propagates out and the remaining
sinks are not attempted; only when every sink succeeds is the message
delivered to all of them. -/
theorem thm_C6 (game w e : String) (ws : List String)
    (f : String → Except String Unit) (hfail : f w = Except.error e) :
    send_game_change_message game (w :: ws) f
        = (Except.error (GdqBotError.SerenityError e), [w], []) ∧
    (∀ ws2 : List String, (∀ x ∈ ws2, f x = Except.ok ()) →
      send_game_change_message game ws2 f
          = (Except.ok (), ws2,
             [⟨LogLevel.info, "Game changed to: " ++ game⟩])) := by
  constructor
  · simp [send_game_change_message, sendLoop, hfail]
  · intro ws2 hok
    simp [send_game_change_message, sendLoop_all_ok f ws2 hok]

/-- Witness for C6: a failing first sink yields an aborted broadcast that
attempted only that sink, while an all-succeeding list is delivered whole. -/
theorem thm_C6_witness :
    send_game_change_message "Celeste" ("sinkA" :: ["sinkB"])
        (fun x => if x = "sinkA" then Except.error "boom" else Except.ok ())
        = (Except.error (GdqBotError.SerenityError "boom"), ["sinkA"], []) ∧
    send_game_change_message "Celeste" ["sinkC"]
        (fun x => if x = "sinkA" then Except.error "boom" else Except.ok ())
        = (Except.ok (), ["sinkC"],
           [⟨LogLevel.info, "Game changed to: " ++ "Celeste"⟩]) :=
  ⟨(thm_C6 "Celeste" "sinkA" "boom" ["sinkB"]
      (fun x => if x = "sinkA" then Except.error "boom" else Except.ok ())
      (by decide)).1,
   (thm_C6 "Celeste" "sinkA" "boom" ["sinkB"]
      (fun x => if x = "sinkA" then Except.error "boom" else Except.ok ())
      (by decide)).2 ["sinkC"] (by decide)⟩

/-- Counterexample to C6 as stated: with two configured sinks where the first
fails, the broadcast returns that failure having attempted only the first
sink — the second sink never receives the message, so one sink's failure does
prevent delivery to the remaining sinks. -/
theorem thm_C6_counterexample :
    send_game_change_message "Celeste" ["hookA", "hookB"]
        (fun x => if x = "hookA" then Except.error "timeout" else Except.ok ())
      = (Except.error (GdqBotError.SerenityError "timeout"), ["hookA"], []) := by
  decide

/-- Claim C7 (amended): an Online non-rerun observation resets the offline
count to 0, but an Online observation whose title marks a rerun returns the
`StreamRerun` error before the reset in the loop body can run, so the count
is left unchanged. -/
theorem thm_C7 (s : BotState) (game title : String) (rest : List (String × String))
    (storeResp : Except String Nat) (webhooks : List String)
    (f : String → Except String Unit) :
    (run_tick s (QueryResult.streams ((game, title) :: rest)) storeResp webhooks f).state.offline_count
      = (if isRerunTitle title then s.offline_count else 0) := by
  cases hre : isRerunTitle title with
  | true => simp [run_tick, get_current_game_from_twitch, hre]
  | false =>
    by_cases hg : game = s.current_game <;>
      simp [run_tick, get_current_game_from_twitch, hre, hg]

/-- Counterexample to C7 as stated: an Online rerun observation arriving with
an offline count of 2 leaves the count at 2 instead of resetting it to 0. -/
theorem thm_C7_counterexample :
    (run_tick ⟨"X", 2, 3⟩ (QueryResult.streams [("Y", "Bonus RERUN block")])
        (Except.error "") [] (fun _ => Except.ok ())).state.offline_count = 2 ∧
    (run_tick ⟨"X", 2, 3⟩ (QueryResult.streams [("Y", "Bonus RERUN block")])
        (Except.error "") [] (fun _ => Except.ok ())).state.offline_count ≠ 0 :=
  ⟨by decide, by decide⟩

/-- Claim C8: a transport/API error from the stream query is not folded into
an Offline observation: the tick propagates it unchanged — state untouched
(count not incremented), no effects, no further query — and the loop returns
that error, whose exit treatment is the non-graceful code 1. -/
theorem thm_C8 (s : BotState) (e : String) (storeResp : Except String Nat)
    (webhooks : List String) (f : String → Except String Unit) :
    run_tick s (QueryResult.error e) storeResp webhooks f
        = ⟨s, Verdict.Terminate (GdqBotError.HelixError e), [], []⟩ ∧
    mainExitCode (Except.error (GdqBotError.HelixError e)) = 1 :=
  ⟨by simp [run_tick, get_current_game_from_twitch], rfl⟩

/-- Claim C9: the process exit status distinguishes the outcomes: 0 when the
run ends in the graceful StreamOffline or StreamRerun signals (or Ok), and 1
for a propagated query error and for each startup failure (token acquisition
or initial state read). -/
theorem thm_C9 (n : Nat) (ttl m g : String) (d : Except GdqBotError String)
    (r : Except GdqBotError Unit) :
    mainExitCode (mainResult (Except.ok ()) (Except.ok g)
        (Except.error (GdqBotError.StreamOffline n))) = 0 ∧
    mainExitCode (mainResult (Except.ok ()) (Except.ok g)
        (Except.error (GdqBotError.StreamRerun ttl))) = 0 ∧
    mainExitCode (mainResult (Except.ok ()) (Except.ok g) (Except.ok ())) = 0 ∧
    mainExitCode (mainResult (Except.ok ()) (Except.ok g)
        (Except.error (GdqBotError.HelixError m))) = 1 ∧
    mainExitCode (mainResult (Except.error (GdqBotError.HelixAccessError m)) d r) = 1 ∧
    mainExitCode (mainResult (Except.ok ())
        (Except.error (GdqBotError.ReqwestError m)) r) = 1 ∧
    mainExitCode (mainResult (Except.ok ())
        (Except.error (GdqBotError.Other m)) r) = 1 :=
  ⟨rfl, rfl, rfl, rfl, rfl, rfl, rfl⟩

/-- Claim C10: the configured threshold is the default 3 when the
OFFLINE_CHECK_COUNT variable is absent or fails to parse as u32, and is the
parsed value verbatim whenever parsing succeeds — including 0, so the
threshold is not guaranteed strictly positive. -/
theorem thm_C10 :
    offline_threshold_from_env none = 3 ∧
    (∀ s : String, parseU32 s = none → offline_threshold_from_env (some s) = 3) ∧
    (∀ (s : String) (v : Nat), parseU32 s = some v →
      offline_threshold_from_env (some s) = v) ∧
    offline_threshold_from_env (some "0") = 0 := by
  refine ⟨rfl, ?_, ?_, by decide⟩
  · intro s hs
    simp [offline_threshold_from_env, hs, DEFAULT_OFFLINE_THRESHOLD]
  · intro s v hs
    simp [offline_threshold_from_env, hs]

/-- Witness for C10: an unparsable value falls back to 3, a plain number is
taken verbatim, and 0 is accepted. -/
theorem thm_C10_witness :
    offline_threshold_from_env (some "not a number") = 3 ∧
    offline_threshold_from_env (some "5") = 5 ∧
    offline_threshold_from_env (some "0") = 0 :=
  ⟨thm_C10.2.1 "not a number" (by decide), thm_C10.2.2.1 "5" 5 (by decide),
   thm_C10.2.2.2⟩
